import Mathlib

/-!
Verification of the credential-and-session authentication flow of the
hidden-help repository, as implemented in
`src/app/api/auth/[...nextauth]/route.ts`, together with the store-client
initialisation of `src/lib/prisma.ts`.

The TypeScript functions are shallowly embedded as total Lean functions.
JavaScript `undefined` for an optional field is modelled as `Option`;
JavaScript string falsiness (`!s` true for `undefined` and `""`) is modelled
explicitly.  The external data store (`prisma.user.findUnique` by email) is
a parameter `store : String → Option UserRecord`, and the hashing
primitive (`bcrypt.compare`) is a parameter
`verify : String → String → Bool`.  `authorize` additionally returns the
list of emails it looked up in the store, so that "no store lookup is
performed" is a statement about the returned log.
-/

/-- The `Role` enum of `route.ts`: `ADMIN | USER | MODERATOR`. -/
inductive Role
  | ADMIN
  | USER
  | MODERATOR
deriving DecidableEq, Repr

/-- The runtime string value of a `Role` enum member. -/
def Role.toStr : Role → String
  | .ADMIN => "ADMIN"
  | .USER => "USER"
  | .MODERATOR => "MODERATOR"

/-- A stored user record as read from the data store: the Prisma `User`
row used by `authorize` (`id`, `email`, `name`, `password` digest, `role`). -/
structure UserRecord where
  id : Nat
  email : String
  name : String
  password : String
  role : Role
deriving DecidableEq, Repr

/-- The credentials object handed to `authorize`; each field may be
absent (`undefined`). -/
structure Credentials where
  email : Option String
  password : Option String
deriving DecidableEq, Repr

/-- The object returned by `authorize` on success:
`{ id: user.id.toString(), email: user.email, name: user.name, role: user.role }`. -/
structure Claims where
  id : String
  email : String
  name : String
  role : Role
deriving DecidableEq, Repr

/-- The three failure kinds thrown by `authorize`. -/
inductive AuthError
  | InvalidInput
  | UserNotFound
  | InvalidCredentials
deriving DecidableEq, Repr

/-- The caller-visible message of each `throw new Error(...)` in `authorize`. -/
def AuthError.message : AuthError → String
  | .InvalidInput => "Please enter an email and password"
  | .UserNotFound => "No user found with this email"
  | .InvalidCredentials => "Incorrect password"

/-- The claims projection at the end of `authorize`:
`{ id: user.id.toString(), email: user.email, name: user.name, role: user.role }`. -/
def buildClaims (u : UserRecord) : Claims :=
  { id := toString u.id, email := u.email, name := u.name, role := u.role }

/-- The `authorize` callback of the credentials provider in `route.ts`.
`store` stands for `prisma.user.findUnique` keyed by email, `verify` for
`bcrypt.compare`.  The second component of the result is the list of
emails looked up in the store during the call.

```
if (!credentials?.email || !credentials?.password) throw InvalidInput
const user = await prisma.user.findUnique({ where: { email } })
if (!user) throw UserNotFound
if (!(await bcrypt.compare(password, user.password))) throw InvalidCredentials
return { id: user.id.toString(), email: user.email, name: user.name, role: user.role }
``` -/
def authorize (store : String → Option UserRecord)
    (verify : String → String → Bool)
    (credentials : Option Credentials) :
    Except AuthError Claims × List String :=
  match credentials with
  | none => (.error .InvalidInput, [])
  | some c =>
    match c.email, c.password with
    | some e, some p =>
      if e = "" ∨ p = "" then (.error .InvalidInput, [])
      else
        match store e with
        | none => (.error .UserNotFound, [e])
        | some u =>
          if verify p u.password then (.ok (buildClaims u), [e])
          else (.error .InvalidCredentials, [e])
    | _, _ => (.error .InvalidInput, [])

/-- The untyped `user` value seen by the `jwt` callback; every field may be
absent, matching the unsound cast in the source. -/
structure JUser where
  id : Option String
  email : Option String
  name : Option String
  role : Option String
deriving DecidableEq, Repr

/-- The runtime type guard of `route.ts`:
`(user as User).role !== undefined`. -/
def isUser (u : JUser) : Bool := u.role ≠ none

/-- The JWT payload; `role` is the field written by the `jwt` callback,
the other fields are the standard claims it must leave untouched. -/
structure Token where
  sub : Option String
  email : Option String
  name : Option String
  role : Option String
deriving DecidableEq, Repr

/-- The `jwt` callback of `route.ts`:
`if (user && isUser(user)) { (token as CustomJWT).role = user.role; } return token;` -/
def jwtCallback (token : Token) (user : Option JUser) : Token :=
  match user with
  | none => token
  | some u => if isUser u then { token with role := u.role } else token

/-- The user sub-object of a session; all fields optional, as in NextAuth. -/
structure SessionUser where
  email : Option String
  name : Option String
  role : Option String
deriving DecidableEq, Repr

/-- A session object: at most a `user` sub-object. -/
structure Session where
  user : Option SessionUser
deriving DecidableEq, Repr

/-- The `session` callback of `route.ts` (the Session Projector):
`if (session?.user) { (session.user as { role: string }).role = (token as CustomJWT).role; } return session;` -/
def sessionCallback (session : Session) (token : Token) : Session :=
  match session.user with
  | none => session
  | some u => { session with user := some { u with role := token.role } }

/-- How the `Claims` value returned by `authorize` arrives at the `jwt`
callback as its `user` argument at login time: every field present, `role`
carrying the enum's string value. -/
def claimsToUser (c : Claims) : JUser :=
  { id := some c.id, email := some c.email, name := some c.name,
    role := some c.role.toStr }

/-- The whole login-and-session pipeline: `authorize`, then the `jwt`
callback embedding the role into the token, then the `session` callback
projecting the session.  Returns `none` when login fails, otherwise the
token and the projected session. -/
def loginPipeline (store : String → Option UserRecord)
    (verify : String → String → Bool)
    (credentials : Option Credentials)
    (token0 : Token) (baseSession : Session) :
    Option (Token × Session) :=
  match (authorize store verify credentials).1 with
  | .error _ => none
  | .ok claims =>
    let t := jwtCallback token0 (some (claimsToUser claims))
    some (t, sessionCallback baseSession t)

/-- A store client instance; `cid` distinguishes distinct constructions of
`new PrismaClient()`. -/
structure PrismaClient where
  cid : Nat
deriving DecidableEq, Repr

/-- Outcome of running the module initialisation of `prisma.ts`: the
exported `prisma` value, the resulting `global.prisma`, and whether a new
client was constructed. -/
structure StoreInit where
  prisma : PrismaClient
  globalPrisma : Option PrismaClient
  constructed : Bool
deriving DecidableEq, Repr

/-- The module initialisation of `src/lib/prisma.ts`.  `fresh` is the
client `new PrismaClient()` would produce if invoked.
```
if (process.env.NODE_ENV === "production") { prisma = new PrismaClient(); }
else { if (!global.prisma) { global.prisma = new PrismaClient(); } prisma = global.prisma; }
``` -/
def initPrisma (nodeEnv : String) (globalPrisma : Option PrismaClient)
    (fresh : PrismaClient) : StoreInit :=
  if nodeEnv = "production" then
    { prisma := fresh, globalPrisma := globalPrisma, constructed := true }
  else
    match globalPrisma with
    | none => { prisma := fresh, globalPrisma := some fresh, constructed := true }
    | some c => { prisma := c, globalPrisma := some c, constructed := false }

/-! ### Concrete fixtures shared by the witnesses -/

/-- The user record of the spec's concrete scenario. -/
def recA : UserRecord :=
  { id := 1, email := "a@x.com", name := "A", password := "digest1", role := .ADMIN }

/-- A store holding exactly `recA` under its email. -/
def storeA : String → Option UserRecord :=
  fun s => if s = "a@x.com" then some recA else none

/-- A store holding no records. -/
def storeEmpty : String → Option UserRecord := fun _ => none

/-- A verify function accepting exactly the password `pw1` against `recA`'s
digest. -/
def verifyA : String → String → Bool :=
  fun p d => p = "pw1" && d = "digest1"

/-! ### Claims -/

/-- C1: for non-empty email and password, when the store lookup finds a
record and verify accepts the password against its digest, `authorize`
returns exactly the claims `{ id := stringified id, email, name, role }`
of the record, and the record's role is one of the three enum values. -/
theorem authorize_success_claims
    (store : String → Option UserRecord) (verify : String → String → Bool)
    (e p : String) (u : UserRecord)
    (he : e ≠ "") (hp : p ≠ "")
    (hs : store e = some u) (hv : verify p u.password = true) :
    (authorize store verify (some ⟨some e, some p⟩)).1 =
      .ok { id := toString u.id, email := u.email, name := u.name, role := u.role } ∧
    (u.role = .ADMIN ∨ u.role = .USER ∨ u.role = .MODERATOR) := by
  constructor
  · simp [authorize, buildClaims, he, hp, hs, hv]
  · cases u.role <;> simp

/-- Witness for C1 at the spec's concrete scenario. -/
theorem authorize_success_claims_witness :
    (authorize storeA verifyA (some ⟨some "a@x.com", some "pw1"⟩)).1 =
      .ok { id := toString recA.id, email := recA.email, name := recA.name,
            role := recA.role } ∧
    (recA.role = .ADMIN ∨ recA.role = .USER ∨ recA.role = .MODERATOR) :=
  authorize_success_claims storeA verifyA "a@x.com" "pw1" recA
    (by decide) (by decide) (by simp [storeA]) (by decide)

/-- C2: with non-empty credentials, a missing record fails with
`UserNotFound`, a found record with rejected password fails with
`InvalidCredentials`, and the two kinds are distinct. -/
theorem authorize_failure_kinds
    (store : String → Option UserRecord) (verify : String → String → Bool)
    (e p : String) (u : UserRecord)
    (he : e ≠ "") (hp : p ≠ "") :
    (store e = none →
      (authorize store verify (some ⟨some e, some p⟩)).1 = .error .UserNotFound) ∧
    (store e = some u → verify p u.password = false →
      (authorize store verify (some ⟨some e, some p⟩)).1 = .error .InvalidCredentials) ∧
    AuthError.UserNotFound ≠ AuthError.InvalidCredentials := by
  refine ⟨?_, ?_, by decide⟩
  · intro hs; simp [authorize, he, hp, hs]
  · intro hs hv; simp [authorize, he, hp, hs, hv]

/-- Witness for C2: one run against the empty store, one against `storeA`
with a wrong password. -/
theorem authorize_failure_kinds_witness :
    (authorize storeEmpty verifyA (some ⟨some "a@x.com", some "pw1"⟩)).1 =
      .error .UserNotFound ∧
    (authorize storeA verifyA (some ⟨some "a@x.com", some "bad"⟩)).1 =
      .error .InvalidCredentials :=
  ⟨(authorize_failure_kinds storeEmpty verifyA "a@x.com" "pw1" recA
      (by decide) (by decide)).1 rfl,
   (authorize_failure_kinds storeA verifyA "a@x.com" "bad" recA
      (by decide) (by decide)).2.1 (by simp [storeA]) (by decide)⟩

/-- The credentials shapes rejected by the initial guard of `authorize`:
`credentials`, `email` or `password` absent, or either field the empty
string (both falsy in JavaScript). -/
def credInvalid : Option Credentials → Prop
  | none => True
  | some c =>
      c.email = none ∨ c.email = some "" ∨ c.password = none ∨ c.password = some ""

/-- C3: whenever email or password is missing or empty, `authorize` fails
with `InvalidInput` and its lookup log is empty: no store lookup occurs. -/
theorem authorize_invalid_input
    (store : String → Option UserRecord) (verify : String → String → Bool)
    (creds : Option Credentials) (h : credInvalid creds) :
    authorize store verify creds = (.error .InvalidInput, []) := by
  cases creds with
  | none => rfl
  | some c =>
    obtain ⟨oe, op⟩ := c
    simp only [credInvalid] at h
    rcases oe with _ | e <;> rcases op with _ | p <;> simp_all [authorize]

/-- Witness for C3 at an empty-email credentials object. -/
theorem authorize_invalid_input_witness :
    authorize storeA verifyA (some ⟨some "", some "pw1"⟩) =
      (.error .InvalidInput, []) :=
  authorize_invalid_input storeA verifyA (some ⟨some "", some "pw1"⟩)
    (by simp [credInvalid])

/-- C4: when the base session has a user, the projected session's user is
that user with `role` set from the token's role, overwriting any prior
value; when it has none, the session is returned unmodified.  The
projector is a total function, so it never fails on any input shape. -/
theorem sessionCallback_spec (s : Session) (t : Token) :
    (∀ u, s.user = some u →
      sessionCallback s t =
        { user := some { email := u.email, name := u.name, role := t.role } }) ∧
    (s.user = none → sessionCallback s t = s) := by
  constructor
  · intro u hu
    simp [sessionCallback, hu]
  · intro h
    simp [sessionCallback, h]

/-- A session user without a role, for the witnesses. -/
def su0 : SessionUser := { email := some "a@x.com", name := some "A", role := none }

/-- A session holding `su0`. -/
def sess0 : Session := { user := some su0 }

/-- A session with no user sub-object. -/
def sessNone : Session := { user := none }

/-- A token carrying the role `ADMIN`. -/
def tokAdmin : Token :=
  { sub := some "1", email := some "a@x.com", name := some "A", role := some "ADMIN" }

/-- Witness for C4: both branches at concrete inputs. -/
theorem sessionCallback_spec_witness :
    sessionCallback sess0 tokAdmin =
      { user := some { email := su0.email, name := su0.name, role := tokAdmin.role } } ∧
    sessionCallback sessNone tokAdmin = sessNone :=
  ⟨(sessionCallback_spec sess0 tokAdmin).1 su0 rfl,
   (sessionCallback_spec sessNone tokAdmin).2 rfl⟩

/-- C6 counterexample: the two failing runs are distinguishable to the
caller: the `UserNotFound` run throws "No user found with this email"
while the `InvalidCredentials` run throws "Incorrect password", so the
caller-visible errors differ. -/
theorem authorize_failures_distinguishable_cex :
    (authorize storeEmpty verifyA (some ⟨some "a@x.com", some "pw1"⟩)).1 =
      .error .UserNotFound ∧
    (authorize storeA verifyA (some ⟨some "a@x.com", some "bad"⟩)).1 =
      .error .InvalidCredentials ∧
    AuthError.message .UserNotFound ≠ AuthError.message .InvalidCredentials := by
  refine ⟨by simp [authorize, storeEmpty], by simp [authorize, storeA, verifyA, recA], by decide⟩

/-- C6 amended: the two failure kinds surface distinct caller-visible
error messages — a `UserNotFound` run throws "No user found with this
email" and an `InvalidCredentials` run throws "Incorrect password" — so
the two runs are distinguishable to the caller. -/
theorem authorize_failure_messages
    (store₁ store₂ : String → Option UserRecord)
    (verify₁ verify₂ : String → String → Bool)
    (e₁ p₁ e₂ p₂ : String) (u : UserRecord)
    (he₁ : e₁ ≠ "") (hp₁ : p₁ ≠ "") (he₂ : e₂ ≠ "") (hp₂ : p₂ ≠ "")
    (h1 : store₁ e₁ = none)
    (h2 : store₂ e₂ = some u) (hv : verify₂ p₂ u.password = false) :
    ∃ k₁ k₂ : AuthError,
      (authorize store₁ verify₁ (some ⟨some e₁, some p₁⟩)).1 = .error k₁ ∧
      (authorize store₂ verify₂ (some ⟨some e₂, some p₂⟩)).1 = .error k₂ ∧
      k₁.message = "No user found with this email" ∧
      k₂.message = "Incorrect password" ∧
      k₁.message ≠ k₂.message := by
  refine ⟨.UserNotFound, .InvalidCredentials, ?_, ?_, rfl, rfl, by decide⟩
  · simp [authorize, he₁, hp₁, h1]
  · simp [authorize, he₂, hp₂, h2, hv]

/-- Witness for the amended C6 at the concrete fixtures. -/
theorem authorize_failure_messages_witness :
    ∃ k₁ k₂ : AuthError,
      (authorize storeEmpty verifyA (some ⟨some "a@x.com", some "pw1"⟩)).1 = .error k₁ ∧
      (authorize storeA verifyA (some ⟨some "a@x.com", some "bad"⟩)).1 = .error k₂ ∧
      k₁.message = "No user found with this email" ∧
      k₂.message = "Incorrect password" ∧
      k₁.message ≠ k₂.message :=
  authorize_failure_messages storeEmpty storeA verifyA verifyA
    "a@x.com" "pw1" "a@x.com" "bad" recA
    (by decide) (by decide) (by decide) (by decide)
    rfl (by simp [storeA]) (by decide)

/-- C7: building claims from a user record, embedding them via the jwt
callback and projecting the session yields a session whose user's role is
the record's role, for every role. -/
theorem roundtrip_role
    (u : UserRecord) (s : Session) (t0 : Token) (su : SessionUser)
    (hu : s.user = some su) :
    ∃ su', (sessionCallback s
        (jwtCallback t0 (some (claimsToUser (buildClaims u))))).user = some su' ∧
      su'.role = some u.role.toStr := by
  refine ⟨{ su with role := some u.role.toStr }, ?_, rfl⟩
  simp [sessionCallback, hu, jwtCallback, isUser, claimsToUser, buildClaims]

/-- Witness for C7 at `recA` and `sess0`. -/
theorem roundtrip_role_witness :
    ∃ su', (sessionCallback sess0
        (jwtCallback tokAdmin (some (claimsToUser (buildClaims recA))))).user = some su' ∧
      su'.role = some recA.role.toStr :=
  roundtrip_role recA sess0 tokAdmin su0 rfl

/-- C8: the session projector is idempotent — reapplying it to its own
output with the same token gives a structurally identical session — and
pure: two calls on the same inputs are structurally identical (purity is
by construction, as the embedding is a function of its arguments only). -/
theorem sessionCallback_idempotent_pure (s : Session) (t : Token) :
    sessionCallback (sessionCallback s t) t = sessionCallback s t ∧
    sessionCallback s t = sessionCallback s t := by
  refine ⟨?_, rfl⟩
  cases hs : s.user <;> simp [sessionCallback, hs]

/-- C9: when the jwt callback's `user` argument is absent or lacks a role
field, the token is returned unchanged in every field. -/
theorem jwtCallback_frame (t : Token) (user : Option JUser)
    (h : user = none ∨ ∃ ju, user = some ju ∧ ju.role = none) :
    jwtCallback t user = t := by
  rcases h with h | ⟨ju, hju, hr⟩
  · simp [jwtCallback, h]
  · simp [jwtCallback, hju, isUser, hr]

/-- A jwt-callback user value with no role field. -/
def juNoRole : JUser := { id := some "1", email := none, name := none, role := none }

/-- Witness for C9: absent user and role-less user, on `tokAdmin`. -/
theorem jwtCallback_frame_witness :
    jwtCallback tokAdmin none = tokAdmin ∧
    jwtCallback tokAdmin (some juNoRole) = tokAdmin :=
  ⟨jwtCallback_frame tokAdmin none (Or.inl rfl),
   jwtCallback_frame tokAdmin (some juNoRole) (Or.inr ⟨juNoRole, rfl, rfl⟩)⟩

/-- C10: outside production an existing global client is reused and
nothing new is constructed; with no global client one is constructed and
stored on the global; in production a client is constructed and the global
is neither consulted nor written. -/
theorem initPrisma_spec (env : String) (g : Option PrismaClient) (f : PrismaClient) :
    (env ≠ "production" → ∀ c, g = some c →
      initPrisma env g f =
        { prisma := c, globalPrisma := some c, constructed := false }) ∧
    (env ≠ "production" → g = none →
      initPrisma env g f =
        { prisma := f, globalPrisma := some f, constructed := true }) ∧
    (env = "production" →
      initPrisma env g f =
        { prisma := f, globalPrisma := g, constructed := true }) := by
  refine ⟨?_, ?_, ?_⟩
  · intro h c hg; simp [initPrisma, h, hg]
  · intro h hg; simp [initPrisma, h, hg]
  · intro h; simp [initPrisma, h]

/-- A first concrete client instance. -/
def clientA : PrismaClient := ⟨0⟩

/-- A second, distinct client instance standing for a fresh construction. -/
def clientB : PrismaClient := ⟨1⟩

/-- Witness for C10: all three branches at concrete inputs. -/
theorem initPrisma_spec_witness :
    initPrisma "development" (some clientA) clientB =
      { prisma := clientA, globalPrisma := some clientA, constructed := false } ∧
    initPrisma "development" none clientB =
      { prisma := clientB, globalPrisma := some clientB, constructed := true } ∧
    initPrisma "production" (some clientA) clientB =
      { prisma := clientB, globalPrisma := some clientA, constructed := true } :=
  ⟨(initPrisma_spec "development" (some clientA) clientB).1 (by decide) clientA rfl,
   (initPrisma_spec "development" none clientB).2.1 (by decide) rfl,
   (initPrisma_spec "production" (some clientA) clientB).2.2 rfl⟩

/-- C5: whenever the login pipeline produces a session that has a user
object, the role carried in the token and the role attached to the session
are the same defined string, and it is one of "ADMIN", "USER",
"MODERATOR". -/
theorem pipeline_role_invariant
    (store : String → Option UserRecord) (verify : String → String → Bool)
    (creds : Option Credentials) (t0 : Token) (s0 : Session)
    (t : Token) (s : Session) (su : SessionUser)
    (hp : loginPipeline store verify creds t0 s0 = some (t, s))
    (hu : s.user = some su) :
    ∃ r, t.role = some r ∧ su.role = some r ∧
      (r = "ADMIN" ∨ r = "USER" ∨ r = "MODERATOR") := by
  unfold loginPipeline at hp
  cases hA : (authorize store verify creds).1 with
  | error err =>
    rw [hA] at hp
    exact absurd hp (by simp)
  | ok claims =>
    rw [hA] at hp
    simp only [Option.some.injEq, Prod.mk.injEq] at hp
    obtain ⟨ht, hs⟩ := hp
    refine ⟨claims.role.toStr, ?_, ?_, ?_⟩
    · rw [← ht]; simp [jwtCallback, isUser, claimsToUser]
    · cases hsu : s0.user with
      | none =>
        rw [← hs] at hu
        simp [sessionCallback, hsu] at hu
      | some u0 =>
        rw [← hs] at hu
        simp only [sessionCallback, hsu] at hu
        simp only [Option.some.injEq] at hu
        rw [← hu]
        simp [jwtCallback, isUser, claimsToUser]
    · cases claims.role <;> simp [Role.toStr]

/-- Witness for C5: the pipeline run for `recA`'s credentials over
`sess0`, whose projected user carries role "ADMIN". -/
theorem pipeline_role_invariant_witness :
    ∃ r, (jwtCallback tokAdmin (some (claimsToUser (buildClaims recA)))).role = some r ∧
      ({ email := su0.email, name := su0.name, role := some "ADMIN" } : SessionUser).role = some r ∧
      (r = "ADMIN" ∨ r = "USER" ∨ r = "MODERATOR") :=
  pipeline_role_invariant storeA verifyA (some ⟨some "a@x.com", some "pw1"⟩)
    tokAdmin sess0
    (jwtCallback tokAdmin (some (claimsToUser (buildClaims recA))))
    (sessionCallback sess0 (jwtCallback tokAdmin (some (claimsToUser (buildClaims recA)))))
    { email := su0.email, name := su0.name, role := some "ADMIN" }
    (by simp [loginPipeline, authorize, storeA, verifyA, recA])
    (by simp [sessionCallback, sess0, jwtCallback, isUser, claimsToUser, buildClaims, recA, su0, Role.toStr])
